import Mathlib

/-!
Verification development for the geh-icu client core: a shallow embedding of
the ML fallback rule engine, the WebSocket transport client, the event bus,
the sync coordinator, and the domain-client request bodies, together with
theorems settling the specification claims about them.

Numbers are modelled as rationals. JavaScript truthiness on optional numeric
fields (where 0 and undefined are both falsy) is modelled explicitly, since
several guards in the source depend on it.
-/

set_option maxRecDepth 4000

/-- JavaScript expression x which defaults with the or-operator to d:
undefined and 0 are falsy, so both select the default. -/
def jsNumOr (x : Option ℚ) (d : ℚ) : ℚ :=
  match x with
  | none => d
  | some v => if v = 0 then d else v

/-- PatientVitals from lib/ml-service.ts: optional fields are Option-valued. -/
structure PatientVitals where
  heartRate : ℚ
  spO2 : ℚ
  temperature : Option ℚ
  systolicBP : ℚ
  diastolicBP : Option ℚ
  respiratoryRate : ℚ
  gcs : ℚ
  lactate : ℚ
  meanBP : Option ℚ := none
  centralVenousPressure : Option ℚ := none
  deriving DecidableEq

/-- LabValues from lib/ml-service.ts. -/
structure LabValues where
  lactate : ℚ
  creatinine : Option ℚ := none
  bilirubin : Option ℚ := none
  hemoglobin : Option ℚ := none
  platelets : Option ℚ := none
  whiteBloodCells : Option ℚ := none
  deriving DecidableEq

/-- Patient from lib/ml-service.ts, restricted to the fields the modelled
functions read (display-only fields such as admissionType are omitted). -/
structure Patient where
  id : String
  name : String
  age : ℚ
  vitals : PatientVitals
  labValues : Option LabValues := none
  comorbidities : Option (List String) := none
  onVentilator : Bool
  onPressors : Bool
  comorbidityScore : Option ℚ := none
  deriving DecidableEq

/-- RichPrediction from lib/ml-service.ts; the wall-clock timestamp field is
omitted (it is an opaque string produced from the current date). -/
structure RichPrediction where
  transferReady : Bool
  confidence : ℚ
  reasoning : String
  riskFactors : List String
  deriving DecidableEq

/-- JavaScript guard of the form opt and opt >= c, as in
patient.labValues?.bilirubin && patient.labValues.bilirubin >= 12:
the value must be present, truthy (nonzero) and at least c. -/
def jsTruthyGe (x : Option ℚ) (c : ℚ) : Bool :=
  match x with
  | none => false
  | some v => decide (v ≠ 0) && decide (c ≤ v)

/-- JavaScript guard of the form opt and opt > c. -/
def jsTruthyGt (x : Option ℚ) (c : ℚ) : Bool :=
  match x with
  | none => false
  | some v => decide (v ≠ 0) && decide (c < v)

/-- calculateSOFAScore from the ML service (identical in both revisions). -/
def calculateSOFAScore (patient : Patient) : ℚ :=
  let sofa : ℚ := 0
  let sofa :=
    if patient.vitals.spO2 < 90 then sofa + 3
    else if patient.vitals.spO2 < 95 then sofa + 2
    else if patient.vitals.spO2 < 98 then sofa + 1
    else sofa
  let map := (patient.vitals.systolicBP + 2 * jsNumOr patient.vitals.diastolicBP 60) / 3
  let sofa :=
    if patient.onPressors then sofa + 4
    else if map < 70 then sofa + 1
    else sofa
  let bilirubin := patient.labValues.bind LabValues.bilirubin
  let sofa :=
    if jsTruthyGe bilirubin 12 then sofa + 4
    else if jsTruthyGe bilirubin 6 then sofa + 3
    else if jsTruthyGe bilirubin 2 then sofa + 2
    else if jsTruthyGe bilirubin 1.2 then sofa + 1
    else sofa
  let creatinine := patient.labValues.bind LabValues.creatinine
  let sofa :=
    if jsTruthyGe creatinine 5 then sofa + 4
    else if jsTruthyGe creatinine 3.5 then sofa + 3
    else if jsTruthyGe creatinine 2 then sofa + 2
    else if jsTruthyGe creatinine 1.2 then sofa + 1
    else sofa
  let sofa :=
    if patient.vitals.gcs < 6 then sofa + 4
    else if patient.vitals.gcs < 10 then sofa + 3
    else if patient.vitals.gcs < 13 then sofa + 2
    else if patient.vitals.gcs < 15 then sofa + 1
    else sofa
  sofa

/-- Temperature guard from assessVitalStability:
vitals.temperature && (temp > 101.5 || temp < 96); a temperature of
exactly 0 is falsy in JavaScript, so it disables the penalty. -/
def tempOutOfRange (x : Option ℚ) : Bool :=
  match x with
  | none => false
  | some t => decide (t ≠ 0) && (decide ((101.5 : ℚ) < t) || decide (t < 96))

/-- assessVitalStability from the ML service (identical in both revisions),
including the unreachable severe else-branches of the source. -/
def assessVitalStability (vitals : PatientVitals) : ℚ :=
  let stability : ℚ := 1.0
  let stability :=
    if vitals.heartRate < 60 ∨ vitals.heartRate > 120 then stability - 0.2
    else if vitals.heartRate < 50 ∨ vitals.heartRate > 140 then stability - 0.4
    else stability
  let stability :=
    if vitals.spO2 < 95 then stability - 0.3
    else if vitals.spO2 < 92 then stability - 0.5
    else stability
  let map := (vitals.systolicBP + 2 * jsNumOr vitals.diastolicBP 60) / 3
  let stability :=
    if map < 65 ∨ vitals.systolicBP > 180 then stability - 0.3
    else stability
  let stability :=
    if tempOutOfRange vitals.temperature then stability - 0.2
    else stability
  let stability :=
    if vitals.respiratoryRate > 24 ∨ vitals.respiratoryRate < 12 then stability - 0.2
    else stability
  max 0 stability

/-- The conditional push factors.push of the source: appends the label when
the condition holds, else leaves the list unchanged. -/
def appendIf (c : Prop) [Decidable c] (l m : List String) : List String :=
  if c then l ++ m else l

/-- JavaScript guard of the form arr && arr.length > n on an optional
array: an absent array is falsy, a present array (even empty) is truthy. -/
def jsArrayLengthGt (x : Option (List String)) (n : Nat) : Bool :=
  match x with
  | none => false
  | some cs => decide (cs.length > n)

/-- identifyRiskFactors from the current service revision, where the
comorbidities access is guarded by a truthiness check. -/
def identifyRiskFactors (patient : Patient) : List String :=
  let factors : List String := []
  let factors := appendIf (patient.onVentilator = true) factors ["Mechanical ventilation"]
  let factors := appendIf (patient.onPressors = true) factors ["Vasopressor support"]
  let factors := appendIf (patient.vitals.gcs < 15) factors ["Altered mental status"]
  let factors := appendIf (patient.vitals.lactate > 2.0) factors ["Elevated lactate"]
  let factors :=
    appendIf (jsTruthyGt (patient.labValues.bind LabValues.creatinine) 1.5 = true)
      factors ["Renal dysfunction"]
  let factors := appendIf (patient.vitals.spO2 < 95) factors ["Hypoxemia"]
  let factors := appendIf (patient.age > 70) factors ["Advanced age"]
  let factors := appendIf (jsArrayLengthGt patient.comorbidities 2 = true)
    factors ["Multiple comorbidities"]
  if factors.length > 0 then factors else ["Low risk profile"]

/-- The ordered decision list shared by both revisions of fallbackPrediction
(first match wins). -/
def transferDecision (onVentilator onPressors : Bool) (sofaScore vitalStability lactate gcs : ℚ)
    (riskFactors : List String) : RichPrediction :=
  if onVentilator || onPressors then
    { transferReady := false, confidence := 0.95,
      reasoning := "Patient requires intensive care support (ventilator/pressors)",
      riskFactors := riskFactors }
  else if sofaScore ≥ 6 then
    { transferReady := false, confidence := 0.9,
      reasoning := "High SOFA score indicates multi-organ dysfunction",
      riskFactors := riskFactors }
  else if lactate > 4.0 then
    { transferReady := false, confidence := 0.88,
      reasoning := "Elevated lactate suggests ongoing tissue hypoperfusion",
      riskFactors := riskFactors }
  else if gcs < 13 then
    { transferReady := false, confidence := 0.85,
      reasoning := "Altered mental status requires continued ICU monitoring",
      riskFactors := riskFactors }
  else if vitalStability < 0.7 then
    { transferReady := false, confidence := 0.8,
      reasoning := "Unstable vital signs require continued intensive monitoring",
      riskFactors := riskFactors }
  else
    { transferReady := true, confidence := min 0.95 (0.7 + vitalStability * 0.25),
      reasoning := "Stable vitals, improving clinical parameters, suitable for step-down care",
      riskFactors := riskFactors }

/-- The body of the try-block of fallbackPrediction in the current service
revision: every optional-field access in it is guarded, so no step can throw
and the body is a total function of the patient snapshot. -/
def fallbackPredictionCore (patient : Patient) : RichPrediction :=
  transferDecision patient.onVentilator patient.onPressors
    (calculateSOFAScore patient) (assessVitalStability patient.vitals)
    patient.vitals.lactate patient.vitals.gcs (identifyRiskFactors patient)

/-- The result built by the catch-branch of fallbackPrediction. -/
def conservativeFallback : RichPrediction :=
  { transferReady := false, confidence := 0.5,
    reasoning := "Unable to assess - requires clinical evaluation",
    riskFactors := ["Assessment unavailable"] }

/-- The try-block of the current fallbackPrediction with the exception
channel made explicit (none models a thrown exception); since the body has
no throwing operation, it always succeeds. -/
def fallbackPredictionTry (patient : Patient) : Option RichPrediction :=
  some (fallbackPredictionCore patient)

/-- fallbackPrediction of the current service revision: the try-block result,
or the conservative result if the body threw. -/
def fallbackPrediction (patient : Patient) : RichPrediction :=
  (fallbackPredictionTry patient).getD conservativeFallback

namespace Legacy

/-- calculateComorbidityScore from the stale lib/ml-service.ts revision: its
parameter is declared non-optional but the caller passes the optional
comorbidities field, so a reduce on undefined throws (modelled as none). -/
def calculateComorbidityScore (comorbidities : Option (List String)) : Option ℚ :=
  match comorbidities with
  | none => none
  | some cs =>
    let weight : String → ℚ := fun condition =>
      if condition = "Diabetes" then 1
      else if condition = "Hypertension" then 1
      else if condition = "CAD" then 2
      else if condition = "CKD" then 2
      else if condition = "COPD" then 2
      else if condition = "Cancer" then 3
      else if condition = "Cirrhosis" then 3
      else 0
    some (cs.foldl (fun score condition => score + weight condition) 0)

/-- identifyRiskFactors from the stale revision: the comorbidities length
access is unguarded, so an absent comorbidities field throws (none). -/
def identifyRiskFactors (patient : Patient) : Option (List String) :=
  match patient.comorbidities with
  | none => none
  | some cs =>
    let factors : List String := []
    let factors := appendIf (patient.onVentilator = true) factors ["Mechanical ventilation"]
    let factors := appendIf (patient.onPressors = true) factors ["Vasopressor support"]
    let factors := appendIf (patient.vitals.gcs < 15) factors ["Altered mental status"]
    let factors := appendIf (patient.vitals.lactate > 2.0) factors ["Elevated lactate"]
    let factors :=
      appendIf (jsTruthyGt (patient.labValues.bind LabValues.creatinine) 1.5 = true)
        factors ["Renal dysfunction"]
    let factors := appendIf (patient.vitals.spO2 < 95) factors ["Hypoxemia"]
    let factors := appendIf (patient.age > 70) factors ["Advanced age"]
    let factors := appendIf (cs.length > 2) factors ["Multiple comorbidities"]
    some (if factors.length > 0 then factors else ["Low risk profile"])

/-- The try-block of the stale revision of fallbackPrediction: it computes a
comorbidity score (whose computation throws when comorbidities is absent)
and the unguarded risk factors before the decision list. -/
def fallbackPredictionTry (patient : Patient) : Option RichPrediction := do
  let sofaScore := calculateSOFAScore patient
  let _comorbidityScore ← calculateComorbidityScore patient.comorbidities
  let vitalStability := assessVitalStability patient.vitals
  let riskFactors ← identifyRiskFactors patient
  some (transferDecision patient.onVentilator patient.onPressors
    sofaScore vitalStability patient.vitals.lactate patient.vitals.gcs riskFactors)

/-- fallbackPrediction of the stale revision: the same catch-wrapper shape. -/
def fallbackPrediction (patient : Patient) : RichPrediction :=
  (fallbackPredictionTry patient).getD conservativeFallback

end Legacy

/-! Per-vital penalty decomposition of assessVitalStability, used to reason
about monotonicity and branch reachability. -/

/-- Heart-rate penalty branch of assessVitalStability, including the
unreachable severe else-branch. -/
def hrPenalty (x : ℚ) : ℚ :=
  if x < 60 ∨ x > 120 then 0.2 else if x < 50 ∨ x > 140 then 0.4 else 0

/-- SpO2 penalty branch of assessVitalStability, including the unreachable
severe else-branch. -/
def spo2Penalty (x : ℚ) : ℚ :=
  if x < 95 then 0.3 else if x < 92 then 0.5 else 0

/-- Blood-pressure penalty branch of assessVitalStability. -/
def bpPenalty (sys : ℚ) (dia : Option ℚ) : ℚ :=
  if (sys + 2 * jsNumOr dia 60) / 3 < 65 ∨ sys > 180 then 0.3 else 0

/-- Temperature penalty branch of assessVitalStability. -/
def tempPenalty (t : Option ℚ) : ℚ :=
  if tempOutOfRange t then 0.2 else 0

/-- Respiratory-rate penalty branch of assessVitalStability. -/
def rrPenalty (x : ℚ) : ℚ :=
  if x > 24 ∨ x < 12 then 0.2 else 0

/-- Distance of a value from the closed safe band between lo and hi. -/
def distToBand (lo hi x : ℚ) : ℚ :=
  max 0 (max (lo - x) (x - hi))

/-- assessVitalStability with the two unreachable severe else-branches
removed, for the branch-reachability claim. -/
def assessVitalStabilityNoSevere (vitals : PatientVitals) : ℚ :=
  let stability : ℚ := 1.0
  let stability :=
    if vitals.heartRate < 60 ∨ vitals.heartRate > 120 then stability - 0.2
    else stability
  let stability :=
    if vitals.spO2 < 95 then stability - 0.3
    else stability
  let map := (vitals.systolicBP + 2 * jsNumOr vitals.diastolicBP 60) / 3
  let stability :=
    if map < 65 ∨ vitals.systolicBP > 180 then stability - 0.3
    else stability
  let stability :=
    if tempOutOfRange vitals.temperature then stability - 0.2
    else stability
  let stability :=
    if vitals.respiratoryRate > 24 ∨ vitals.respiratoryRate < 12 then stability - 0.2
    else stability
  max 0 stability

/-! Transport Client: the module-level WebSocket handle, reconnecting flag
and socket-creation count, with connectWebSocket and the socket event
handlers as state transitions. -/

/-- Browser WebSocket readyState values. -/
inductive WsReadyState where
  | CONNECTING
  | OPEN
  | CLOSING
  | CLOSED
  deriving DecidableEq

/-- The transport-client state: the single ws slot, the isReconnecting flag,
and a ghost counter of WebSocket constructions used to express that no
duplicate connection is ever created. -/
structure ConnState where
  ws : Option WsReadyState
  isReconnecting : Bool
  socketsCreated : Nat
  deriving DecidableEq

/-- connectWebSocket from the current service revision: returns immediately
when the socket is OPEN or when isReconnecting is set; otherwise sets the
flag and constructs a new socket in CONNECTING state. -/
def connectWebSocket (s : ConnState) : ConnState :=
  if s.ws = some WsReadyState.OPEN then s
  else if s.isReconnecting = true then s
  else { ws := some WsReadyState.CONNECTING, isReconnecting := true,
         socketsCreated := s.socketsCreated + 1 }

/-- The onopen handler: the socket becomes OPEN and the reconnecting flag is
cleared. -/
def onSocketOpen (s : ConnState) : ConnState :=
  { s with ws := some WsReadyState.OPEN, isReconnecting := false }

/-- The onerror handler: clears the reconnecting flag. -/
def onSocketError (s : ConnState) : ConnState :=
  { s with isReconnecting := false }

/-- The onclose handler: the socket is CLOSED, the flag is cleared, and a
reconnect timer is scheduled (the timer itself re-invokes connectWebSocket
after five seconds; the delay is not modelled). -/
def onSocketClose (s : ConnState) : ConnState :=
  { s with ws := some WsReadyState.CLOSED, isReconnecting := false }

/-! Sync Coordinator: the side effects of the onmessage handler of the
current service revision, as a list of actions. -/

/-- Observable side effects of handling one inbound WebSocket envelope. -/
inductive SyncAction where
  | dispatch (eventType : String)
  | refetchPatients
  | refetchTransferRequests
  deriving DecidableEq

/-- triggerPatientDataRefresh: refetches the patient list and invokes the
registered callback, provided one is registered. -/
def triggerPatientDataRefresh (hasPatientCb : Bool) : List SyncAction :=
  if hasPatientCb then [SyncAction.refetchPatients] else []

/-- triggerTransferRequestRefresh: refetches the transfer-request list and
invokes the registered callback, provided one is registered. -/
def triggerTransferRequestRefresh (hasTransferCb : Bool) : List SyncAction :=
  if hasTransferCb then [SyncAction.refetchTransferRequests] else []

/-- The onmessage handler of connectWebSocket in the current service
revision: it always dispatches the event on the bus, then triggers the
patient refresh for vitals_update, patient_updated and patient_discharged,
and the transfer-request refresh for transfer_request_created,
transfer_request_updated and patient_discharged. -/
def handleWsMessage (hasPatientCb hasTransferCb : Bool) (eventType : String) : List SyncAction :=
  [SyncAction.dispatch eventType]
    ++ (if eventType = "vitals_update" ∨ eventType = "patient_updated" ∨
          eventType = "patient_discharged" then
          triggerPatientDataRefresh hasPatientCb
        else [])
    ++ (if eventType = "transfer_request_created" ∨ eventType = "transfer_request_updated" ∨
          eventType = "patient_discharged" then
          triggerTransferRequestRefresh hasTransferCb
        else [])

/-- The payload of a vitals_update envelope, as read by the dashboard
listener handleVitalsUpdate. -/
structure VitalsUpdateMsg where
  patient_id : String
  heartRate : ℚ
  spO2 : ℚ
  respiratoryRate : ℚ
  systolicBP : ℚ
  lactate : ℚ
  gcs : ℚ
  deriving DecidableEq

/-- The vitals patch applied by the dashboard listener: the six pushed
fields replace the cached ones; all other vitals fields are kept. -/
def patchVitals (v : PatientVitals) (d : VitalsUpdateMsg) : PatientVitals :=
  { v with heartRate := d.heartRate, spO2 := d.spO2,
           respiratoryRate := d.respiratoryRate, systolicBP := d.systolicBP,
           lactate := d.lactate, gcs := d.gcs }

/-- handleVitalsUpdate from the dashboard page: maps over the cached patient
list and patches the vitals sub-object of the matching patient in place. -/
def handleVitalsUpdate (d : VitalsUpdateMsg) (patients : List Patient) : List Patient :=
  patients.map fun p =>
    if p.id = d.patient_id then { p with vitals := patchVitals p.vitals d } else p

/-! Event Bus: the listeners map with addListener and notifyListeners. A
subscriber callback is modelled as a state transformer returning the new
state together with a flag recording whether the callback threw; the
dispatcher of the current revision wraps each invocation in a catch, so it
keeps the returned state and never consults the flag. -/

/-- A subscriber callback: from the payload and the world state to the new
world state and a thrown-exception flag. -/
def EventCallback (σ Payload : Type) : Type := Payload → σ → σ × Bool

/-- Invoke a list of callbacks in order, each wrapped in a catch that
discards a thrown exception. -/
def runCallbacks {σ Payload : Type} (callbacks : List (EventCallback σ Payload))
    (data : Payload) (s : σ) : σ :=
  callbacks.foldl (fun st cb => (cb data st).1) s

/-- The listeners field: a map from event name to subscriber list. -/
abbrev ListenerMap (σ Payload : Type) : Type := List (String × List (EventCallback σ Payload))

/-- Lookup of the subscriber list registered for an event. -/
def getListeners {σ Payload : Type} (listeners : ListenerMap σ Payload)
    (event : String) : Option (List (EventCallback σ Payload)) :=
  (listeners.find? (fun e => e.1 == event)).map (fun e => e.2)

/-- addListener: creates the entry when absent, then pushes the callback at
the end of the event's subscriber list. -/
def addListener {σ Payload : Type} (listeners : ListenerMap σ Payload)
    (event : String) (callback : EventCallback σ Payload) : ListenerMap σ Payload :=
  if (getListeners listeners event).isSome then
    listeners.map (fun e => if e.1 == event then (e.1, e.2 ++ [callback]) else e)
  else
    listeners ++ [(event, [callback])]

/-- notifyListeners from the current service revision: looks up the event
entry and invokes every registered callback in order, each in a catch; with
no entry it is a no-op. -/
def notifyListeners {σ Payload : Type} (listeners : ListenerMap σ Payload)
    (event : String) (data : Payload) (s : σ) : σ :=
  match getListeners listeners event with
  | some callbacks => runCallbacks callbacks data s
  | none => s

/-! Domain Client: the JSON request bodies built by the mutating transfer
calls, modelled as association lists of string fields. -/

/-- Field lookup in a JSON body. -/
def getField (body : List (String × String)) (key : String) : Option String :=
  (body.find? (fun e => e.1 == key)).map (fun e => e.2)

/-- Whether a JSON body carries a field. -/
def hasField (body : List (String × String)) (key : String) : Bool :=
  (getField body key).isSome

/-- The body sent by updateTransferRequest: the caller's partial update data
spread first, then an updated_at field holding the current time, which
overrides any caller-supplied updated_at. -/
def updateTransferRequestBody (updateData : List (String × String)) (now : String) :
    List (String × String) :=
  updateData.filter (fun e => e.1 ≠ "updated_at") ++ [("updated_at", now)]

/-- The body sent by approveTransferRequest (doctor approval). -/
def approveTransferRequestBody (doctorId targetDepartment : String) (notes : Option String) :
    List (String × String) :=
  [("doctor_id", doctorId), ("target_department", targetDepartment),
   ("notes", notes.getD "Transfer approved by doctor")]

/-- The body sent by rejectTransferRequest (doctor rejection). -/
def rejectTransferRequestBody (doctorId : String) (notes : Option String) :
    List (String × String) :=
  [("doctor_id", doctorId), ("notes", notes.getD "Transfer request rejected by doctor")]

/-- The body sent by adminApproveTransferRequest. -/
def adminApproveTransferRequestBody (adminId targetDepartment : String) (notes : Option String) :
    List (String × String) :=
  [("admin_id", adminId), ("target_department", targetDepartment),
   ("notes", notes.getD "Transfer approved by admin")]

/-- The body sent by dischargePatient. -/
def dischargePatientBody (nurseId : String) (notes : Option String) :
    List (String × String) :=
  [("nurse_id", nurseId), ("notes", notes.getD "")]

/-- Whether one string occurs inside another, used to state that a reasoning
text mentions a word. -/
abbrev mentionsWord (needle hay : String) : Prop :=
  needle.toList <:+: hay.toList

/-! Concrete patient snapshots used by witnesses and counterexamples. -/

/-- A stable patient: all vitals inside their safe bands, no support. -/
def patientStable : Patient :=
  { id := "p-stable", name := "Stable", age := 45,
    vitals := { heartRate := 80, spO2 := 99, temperature := some 98.6,
                systolicBP := 120, diastolicBP := some 80,
                respiratoryRate := 16, gcs := 15, lactate := 1 },
    onVentilator := false, onPressors := false }

/-- A ventilated patient whose comorbidities field is absent. -/
def patientVentilated : Patient :=
  { id := "p-vent", name := "Vent", age := 45,
    vitals := { heartRate := 80, spO2 := 99, temperature := some 98.6,
                systolicBP := 120, diastolicBP := some 80,
                respiratoryRate := 16, gcs := 15, lactate := 1 },
    comorbidities := none,
    onVentilator := true, onPressors := false }

/-- A patient with lactate 5.2 who is not ventilated but is on pressors. -/
def patientPressorsLactate : Patient :=
  { id := "p-press", name := "Press", age := 45,
    vitals := { heartRate := 80, spO2 := 99, temperature := some 98.6,
                systolicBP := 120, diastolicBP := some 80,
                respiratoryRate := 16, gcs := 15, lactate := 5.2 },
    onVentilator := false, onPressors := true }

/-- A patient with lactate 5.2, no life support and a low SOFA score. -/
def patientLactateOnly : Patient :=
  { id := "p-lact", name := "Lact", age := 45,
    vitals := { heartRate := 80, spO2 := 99, temperature := some 98.6,
                systolicBP := 120, diastolicBP := some 80,
                respiratoryRate := 16, gcs := 15, lactate := 5.2 },
    onVentilator := false, onPressors := false }

/-- Vitals used by the temperature counterexample: everything safe except a
temperature of 95, slightly below the safe band. -/
def vitalsTemp95 : PatientVitals :=
  { heartRate := 80, spO2 := 99, temperature := some 95,
    systolicBP := 120, diastolicBP := some 80,
    respiratoryRate := 16, gcs := 15, lactate := 1 }

/-- The same vitals with the temperature moved to 0, far below the safe
band, which JavaScript truthiness treats as an absent reading. -/
def vitalsTemp0 : PatientVitals :=
  { vitalsTemp95 with temperature := some 0 }

/-- A penalty of c charged exactly when the value lies outside the closed
band between lo and hi; the normal form of each reachable stability
penalty. -/
def bandPenalty (lo hi c x : ℚ) : ℚ :=
  if x < lo ∨ x > hi then c else 0

/-- A vitals_update payload used by witnesses. -/
def vitalsMsg : VitalsUpdateMsg :=
  { patient_id := "px", heartRate := 82, spO2 := 98, respiratoryRate := 17,
    systolicBP := 118, lactate := 1.1, gcs := 15 }

/-! Helper lemmas about the stability decomposition. -/

theorem hrPenalty_eq (x : ℚ) : hrPenalty x = bandPenalty 60 120 0.2 x := by
  unfold hrPenalty bandPenalty
  split_ifs with h1 h2
  · rfl
  · exfalso
    push_neg at h1
    rcases h2 with h | h <;> linarith [h1.1, h1.2]
  · rfl

theorem spo2Penalty_eq (x : ℚ) : spo2Penalty x = if x < 95 then 0.3 else 0 := by
  unfold spo2Penalty
  split_ifs with h1 h2
  · rfl
  · exfalso
    linarith
  · rfl

theorem bpPenalty_eq (sys : ℚ) (dia : Option ℚ) :
    bpPenalty sys dia = bandPenalty (195 - 2 * jsNumOr dia 60) 180 0.3 sys := by
  unfold bpPenalty bandPenalty
  have hiff : ((sys + 2 * jsNumOr dia 60) / 3 < 65 ∨ sys > 180) ↔
      (sys < 195 - 2 * jsNumOr dia 60 ∨ sys > 180) := by
    constructor
    · rintro (h | h)
      · left
        rw [div_lt_iff₀ (by norm_num : (0:ℚ) < 3)] at h
        linarith
      · right
        exact h
    · rintro (h | h)
      · left
        rw [div_lt_iff₀ (by norm_num : (0:ℚ) < 3)]
        linarith
      · right
        exact h
  rw [if_congr hiff rfl rfl]

theorem tempPenalty_eq_of_ne (t : ℚ) (ht : t ≠ 0) :
    tempPenalty (some t) = bandPenalty 96 101.5 0.2 t := by
  unfold tempPenalty tempOutOfRange bandPenalty
  have hd : (decide (t ≠ 0) && (decide ((101.5:ℚ) < t) || decide (t < 96))) = true ↔
      ((101.5:ℚ) < t ∨ t < 96) := by
    simp [ht, Bool.and_eq_true, Bool.or_eq_true, decide_eq_true_eq]
  rw [if_congr (hd.trans or_comm) rfl rfl]

theorem rrPenalty_eq (x : ℚ) : rrPenalty x = bandPenalty 12 24 0.2 x := by
  unfold rrPenalty bandPenalty
  have hiff : (x > 24 ∨ x < 12) ↔ (x < 12 ∨ x > 24) := or_comm
  rw [if_congr hiff rfl rfl]

theorem assessVitalStability_decomp (v : PatientVitals) :
    assessVitalStability v =
      max 0 (1 - hrPenalty v.heartRate - spo2Penalty v.spO2
        - bpPenalty v.systolicBP v.diastolicBP - tempPenalty v.temperature
        - rrPenalty v.respiratoryRate) := by
  simp only [assessVitalStability, hrPenalty, spo2Penalty, bpPenalty, tempPenalty, rrPenalty]
  split_ifs <;> norm_num

theorem hrPenalty_nonneg (x : ℚ) : 0 ≤ hrPenalty x := by
  unfold hrPenalty
  split_ifs <;> norm_num

theorem spo2Penalty_nonneg (x : ℚ) : 0 ≤ spo2Penalty x := by
  unfold spo2Penalty
  split_ifs <;> norm_num

theorem bpPenalty_nonneg (sys : ℚ) (dia : Option ℚ) : 0 ≤ bpPenalty sys dia := by
  unfold bpPenalty
  split_ifs <;> norm_num

theorem tempPenalty_nonneg (t : Option ℚ) : 0 ≤ tempPenalty t := by
  unfold tempPenalty
  split_ifs <;> norm_num

theorem rrPenalty_nonneg (x : ℚ) : 0 ≤ rrPenalty x := by
  unfold rrPenalty
  split_ifs <;> norm_num

theorem assessVitalStability_nonneg (v : PatientVitals) : 0 ≤ assessVitalStability v := by
  rw [assessVitalStability_decomp]
  exact le_max_left 0 _

theorem assessVitalStability_le_one (v : PatientVitals) : assessVitalStability v ≤ 1 := by
  rw [assessVitalStability_decomp]
  have h1 := hrPenalty_nonneg v.heartRate
  have h2 := spo2Penalty_nonneg v.spO2
  have h3 := bpPenalty_nonneg v.systolicBP v.diastolicBP
  have h4 := tempPenalty_nonneg v.temperature
  have h5 := rrPenalty_nonneg v.respiratoryRate
  apply max_le (by norm_num)
  linarith

theorem distToBand_pos_of_outside (lo hi x : ℚ) (h : x < lo ∨ x > hi) :
    0 < distToBand lo hi x := by
  unfold distToBand
  rcases h with h | h
  · exact lt_max_iff.mpr (Or.inr (lt_max_iff.mpr (Or.inl (by linarith))))
  · exact lt_max_iff.mpr (Or.inr (lt_max_iff.mpr (Or.inr (by linarith))))

theorem distToBand_eq_zero_of_inside (lo hi x : ℚ) (h1 : ¬(x < lo)) (h2 : ¬(x > hi)) :
    distToBand lo hi x = 0 := by
  unfold distToBand
  rw [max_eq_left]
  apply max_le <;> linarith

theorem bandPenalty_mono (lo hi c x y : ℚ) (hc : 0 ≤ c)
    (h : distToBand lo hi x ≤ distToBand lo hi y) :
    bandPenalty lo hi c x ≤ bandPenalty lo hi c y := by
  unfold bandPenalty
  by_cases hx : x < lo ∨ x > hi
  · by_cases hy : y < lo ∨ y > hi
    · rw [if_pos hx, if_pos hy]
    · exfalso
      push_neg at hy
      have h0 := distToBand_eq_zero_of_inside lo hi y (not_lt.mpr hy.1) (not_lt.mpr hy.2)
      have hp := distToBand_pos_of_outside lo hi x hx
      rw [h0] at h
      linarith
  · by_cases hy : y < lo ∨ y > hi
    · rw [if_neg hx, if_pos hy]
      exact hc
    · rw [if_neg hx, if_neg hy]

theorem spo2Penalty_mono (x y : ℚ) (h : max 0 (95 - x) ≤ max 0 (95 - y)) :
    spo2Penalty x ≤ spo2Penalty y := by
  rw [spo2Penalty_eq, spo2Penalty_eq]
  by_cases hx : x < 95
  · by_cases hy : y < 95
    · rw [if_pos hx, if_pos hy]
    · exfalso
      push_neg at hy
      have h0 : max (0:ℚ) (95 - y) = 0 := max_eq_left (by linarith)
      have hp : (0:ℚ) < max 0 (95 - x) := lt_max_iff.mpr (Or.inr (by linarith))
      rw [h0] at h
      linarith
  · by_cases hy : y < 95
    · rw [if_neg hx, if_pos hy]
      norm_num
    · rw [if_neg hx, if_neg hy]

theorem fallbackPrediction_eq_core (p : Patient) :
    fallbackPrediction p = fallbackPredictionCore p := rfl

/-- C1: for every Patient snapshot on a ventilator or on pressors, the
fallback prediction engine returns transferReady false with confidence
0.95, regardless of all other vitals, lab values, age and comorbidities
(the quantification over the whole Patient record covers an absent
comorbidities field). -/
theorem c1_life_support_not_ready (p : Patient)
    (h : p.onVentilator = true ∨ p.onPressors = true) :
    (fallbackPrediction p).transferReady = false ∧
      (fallbackPrediction p).confidence = 0.95 := by
  rw [fallbackPrediction_eq_core]
  unfold fallbackPredictionCore transferDecision
  rcases h with h | h <;> simp [h]

/-- Witness for C1 at a concrete ventilated patient whose comorbidities
field is absent. -/
theorem c1_life_support_not_ready_witness :
    patientVentilated.comorbidities = none ∧
      (patientVentilated.onVentilator = true ∨ patientVentilated.onPressors = true) ∧
      (fallbackPrediction patientVentilated).transferReady = false ∧
      (fallbackPrediction patientVentilated).confidence = 0.95 :=
  ⟨rfl, Or.inl rfl, c1_life_support_not_ready patientVentilated (Or.inl rfl)⟩

/-- C3: connectWebSocket is a no-op while the socket is OPEN or while the
reconnecting flag is set, and calling it twice while connected leaves the
state unchanged, creates no further socket, and keeps exactly the one open
socket. -/
theorem c3_connect_idempotent (s : ConnState) :
    (s.ws = some WsReadyState.OPEN → connectWebSocket s = s) ∧
      (s.isReconnecting = true → connectWebSocket s = s) ∧
      (s.ws = some WsReadyState.OPEN →
        connectWebSocket (connectWebSocket s) = s ∧
          (connectWebSocket (connectWebSocket s)).socketsCreated = s.socketsCreated ∧
          (connectWebSocket (connectWebSocket s)).ws = some WsReadyState.OPEN) := by
  have hopen : s.ws = some WsReadyState.OPEN → connectWebSocket s = s := by
    intro h
    unfold connectWebSocket
    simp [h]
  have hrec : s.isReconnecting = true → connectWebSocket s = s := by
    intro h
    unfold connectWebSocket
    by_cases ho : s.ws = some WsReadyState.OPEN <;> simp [h, ho]
  refine ⟨hopen, hrec, fun h => ?_⟩
  have h1 := hopen h
  rw [h1, h1]
  exact ⟨rfl, rfl, h⟩

/-- Witness for C3 at a concrete connected state. -/
theorem c3_connect_idempotent_witness :
    connectWebSocket (connectWebSocket ⟨some WsReadyState.OPEN, false, 1⟩) =
        (⟨some WsReadyState.OPEN, false, 1⟩ : ConnState) ∧
      (connectWebSocket (connectWebSocket ⟨some WsReadyState.OPEN, false, 1⟩)).socketsCreated = 1 :=
  ⟨((c3_connect_idempotent ⟨some WsReadyState.OPEN, false, 1⟩).2.2 rfl).1,
    ((c3_connect_idempotent ⟨some WsReadyState.OPEN, false, 1⟩).2.2 rfl).2.1⟩

/-- C5 counterexample: the doctor-approve call is a mutating Domain Client
call on a transfer request, yet its request body carries no updated_at
field at all, so the claim that every mutating call stamps updated_at
client-side fails at this input. -/
theorem c5_counterexample_approve_no_stamp :
    hasField (approveTransferRequestBody "doctor-1" "General Ward" none) "updated_at" = false ∧
      hasField (rejectTransferRequestBody "doctor-1" none) "updated_at" = false ∧
      hasField (adminApproveTransferRequestBody "admin-1" "General Ward" none) "updated_at" = false ∧
      hasField (dischargePatientBody "nurse-1" none) "updated_at" = false := by
  exact ⟨rfl, rfl, rfl, rfl⟩

theorem getField_filtered_append (now : String) (l : List (String × String)) :
    getField (l.filter (fun e => e.1 ≠ "updated_at") ++ [("updated_at", now)]) "updated_at" =
      some now := by
  induction l with
  | nil => rfl
  | cons e rest ih =>
    by_cases hk : e.1 = "updated_at"
    · simpa [List.filter_cons, hk] using ih
    · have hb : (e.1 == "updated_at") = false := by
        simp [hk]
      simp only [List.filter_cons, hk, decide_not, Bool.not_false, if_true,
        decide_False, decide_True, List.cons_append, getField, List.find?_cons, hb]
      simp only [getField] at ih
      simpa using ih

/-- C5 amended: only the generic updateTransferRequest call stamps
updated_at client-side into the body before send (overriding any
caller-supplied value); the doctor-approve, doctor-reject, admin-approve
and discharge calls send only their role-specific fields and carry no
updated_at at all. -/
theorem c5_amended_only_update_stamps (updateData : List (String × String))
    (now doctorId adminId nurseId targetDepartment : String) (notes : Option String) :
    getField (updateTransferRequestBody updateData now) "updated_at" = some now ∧
      hasField (approveTransferRequestBody doctorId targetDepartment notes) "updated_at" = false ∧
      hasField (rejectTransferRequestBody doctorId notes) "updated_at" = false ∧
      hasField (adminApproveTransferRequestBody adminId targetDepartment notes) "updated_at" = false ∧
      hasField (dischargePatientBody nurseId notes) "updated_at" = false := by
  refine ⟨?_, rfl, rfl, rfl, rfl⟩
  unfold updateTransferRequestBody
  exact getField_filtered_append now updateData

/-- C6: fallbackPrediction is total. In the current revision the try-block
body has no throwing operation, so the explicit exception channel always
yields a result and the function returns it; in the stale revision the body
can throw (an absent comorbidities field), and the catch then returns the
maximally conservative not-ready result with confidence 0.5, reasoning that
the assessment is unavailable, and risk factors Assessment unavailable. -/
theorem c6_fallback_total_and_conservative (p : Patient) :
    (fallbackPredictionTry p).isSome = true ∧
      fallbackPrediction p = (fallbackPredictionTry p).getD conservativeFallback ∧
      Legacy.fallbackPrediction p = (Legacy.fallbackPredictionTry p).getD conservativeFallback ∧
      (Legacy.fallbackPredictionTry p = none →
        Legacy.fallbackPrediction p = conservativeFallback) ∧
      conservativeFallback.transferReady = false ∧
      conservativeFallback.confidence = 0.5 ∧
      mentionsWord "Unable to assess" conservativeFallback.reasoning ∧
      conservativeFallback.riskFactors = ["Assessment unavailable"] := by
  refine ⟨rfl, rfl, rfl, fun h => ?_, rfl, rfl, by decide, rfl⟩
  unfold Legacy.fallbackPrediction
  rw [h]
  rfl

/-- Witness for C6: a ventilated patient with no comorbidities makes the
stale try-block throw, and the catch returns the conservative result. -/
theorem c6_fallback_total_and_conservative_witness :
    Legacy.fallbackPredictionTry patientVentilated = none ∧
      Legacy.fallbackPrediction patientVentilated = conservativeFallback :=
  ⟨rfl, (c6_fallback_total_and_conservative patientVentilated).2.2.2.1 rfl⟩

/-- C2 counterexample: a vitals_update event does not only patch vitals in
place; the coordinator also performs a full patient-list refetch, so the
action list is not just the dispatch. -/
theorem c2_counterexample_vitals_update_refetches :
    (handleWsMessage true true "vitals_update").count SyncAction.refetchPatients = 1 ∧
      handleWsMessage true true "vitals_update" ≠ [SyncAction.dispatch "vitals_update"] := by
  constructor <;> decide

/-- C2 amended: every event is dispatched once; the patient-list refetch
fires exactly for vitals_update, patient_updated and patient_discharged
(so vitals_update triggers a full refetch besides the listener patch,
contrary to the original claim); the transfer-request refetch fires exactly
for transfer_request_created, transfer_request_updated and
patient_discharged; patient_discharged triggers both refetches exactly once
each; and the dashboard vitals_update listener patches only the matching
patient, replacing exactly the six pushed vitals fields. -/
theorem c2_amended_refetch_exactly (t : String) :
    ((handleWsMessage true true t).count SyncAction.refetchPatients =
      if t = "vitals_update" ∨ t = "patient_updated" ∨ t = "patient_discharged" then 1 else 0) ∧
      ((handleWsMessage true true t).count SyncAction.refetchTransferRequests =
        if t = "transfer_request_created" ∨ t = "transfer_request_updated" ∨
          t = "patient_discharged" then 1 else 0) ∧
      ((handleWsMessage true true t).count (SyncAction.dispatch t) = 1) ∧
      ((handleWsMessage true true "patient_discharged").count SyncAction.refetchPatients = 1 ∧
        (handleWsMessage true true "patient_discharged").count
          SyncAction.refetchTransferRequests = 1) ∧
      (∀ (d : VitalsUpdateMsg) (ps : List Patient) (p : Patient),
        p ∈ ps → p.id ≠ d.patient_id → p ∈ handleVitalsUpdate d ps) ∧
      (∀ (d : VitalsUpdateMsg) (v : PatientVitals),
        (patchVitals v d).heartRate = d.heartRate ∧ (patchVitals v d).spO2 = d.spO2 ∧
          (patchVitals v d).respiratoryRate = d.respiratoryRate ∧
          (patchVitals v d).systolicBP = d.systolicBP ∧
          (patchVitals v d).lactate = d.lactate ∧ (patchVitals v d).gcs = d.gcs ∧
          (patchVitals v d).temperature = v.temperature ∧
          (patchVitals v d).diastolicBP = v.diastolicBP) := by
  refine ⟨?_, ?_, ?_, by constructor <;> decide, ?_, ?_⟩
  · unfold handleWsMessage triggerPatientDataRefresh triggerTransferRequestRefresh
    split_ifs <;>
      simp_all [List.count_append, List.count_cons, List.count_nil]
  · unfold handleWsMessage triggerPatientDataRefresh triggerTransferRequestRefresh
    split_ifs <;>
      simp_all [List.count_append, List.count_cons, List.count_nil]
  · unfold handleWsMessage triggerPatientDataRefresh triggerTransferRequestRefresh
    split_ifs <;>
      simp_all [List.count_append, List.count_cons, List.count_nil]
  · intro d ps p hp hne
    unfold handleVitalsUpdate
    refine List.mem_map.mpr ⟨p, hp, ?_⟩
    rw [if_neg hne]
  · intro d v
    exact ⟨rfl, rfl, rfl, rfl, rfl, rfl, rfl, rfl⟩

/-- Witness for C2 amended, applied at a concrete event type and a concrete
cached patient list. -/
theorem c2_amended_refetch_exactly_witness :
    patientStable ∈ handleVitalsUpdate vitalsMsg [patientStable] ∧
      (handleWsMessage true true "patient_updated").count SyncAction.refetchPatients = 1 :=
  ⟨(c2_amended_refetch_exactly "patient_updated").2.2.2.2.1 vitalsMsg [patientStable]
      patientStable (List.mem_singleton.mpr rfl) (by decide),
    ((c2_amended_refetch_exactly "patient_updated").1).trans (by decide)⟩

theorem getListeners_append_single {σ Payload : Type} (event : String)
    (cbs : List (EventCallback σ Payload)) :
    ∀ listeners : ListenerMap σ Payload, getListeners listeners event = none →
      getListeners (listeners ++ [(event, cbs)]) event = some cbs := by
  intro listeners
  induction listeners with
  | nil =>
    intro _
    simp [getListeners]
  | cons e rest ih =>
    intro h
    cases hbe : (e.1 == event) with
    | true =>
      exfalso
      unfold getListeners at h
      simp [List.find?, hbe] at h
    | false =>
      unfold getListeners at h ⊢
      simp only [List.cons_append, List.find?, hbe] at h ⊢
      exact ih h

theorem getListeners_map_push {σ Payload : Type} (event : String) (cb : EventCallback σ Payload) :
    ∀ (listeners : ListenerMap σ Payload) (cbs : List (EventCallback σ Payload)),
      getListeners listeners event = some cbs →
      getListeners
          (listeners.map (fun e => if e.1 == event then (e.1, e.2 ++ [cb]) else e)) event =
        some (cbs ++ [cb]) := by
  intro listeners
  induction listeners with
  | nil =>
    intro cbs h
    simp [getListeners] at h
  | cons e rest ih =>
    intro cbs h
    cases hbe : (e.1 == event) with
    | true =>
      unfold getListeners at h ⊢
      simp [List.find?, hbe] at h ⊢
      rw [h]
    | false =>
      unfold getListeners at h ⊢
      simp only [List.map_cons, List.find?, hbe, Bool.false_eq_true, if_false] at h ⊢
      exact ih cbs h

/-- C4: dispatching an event with no registered subscriber entry returns the
state unchanged and cannot throw; runCallbacks is the left fold of the
subscriber list, so subscribers run synchronously in list order, and since
addListener appends, list order is registration order; the dispatcher never
consults the thrown flag of a callback (the catch of the source), so for
every callback, including one that throws, the callbacks after it still run
on the state it left behind. -/
theorem c4_dispatch_isolated {σ Payload : Type} :
    (∀ (listeners : ListenerMap σ Payload) (event : String) (data : Payload) (s : σ),
      getListeners listeners event = none → notifyListeners listeners event data s = s) ∧
      (∀ (l₁ l₂ : List (EventCallback σ Payload)) (data : Payload) (s : σ),
        runCallbacks (l₁ ++ l₂) data s = runCallbacks l₂ data (runCallbacks l₁ data s)) ∧
      (∀ (pre post : List (EventCallback σ Payload)) (bad : EventCallback σ Payload)
          (data : Payload) (s : σ),
        runCallbacks (pre ++ bad :: post) data s =
          runCallbacks post data ((bad data (runCallbacks pre data s)).1)) ∧
      (∀ (listeners : ListenerMap σ Payload) (event : String) (cb : EventCallback σ Payload),
        getListeners (addListener listeners event cb) event =
          some ((getListeners listeners event).getD [] ++ [cb])) := by
  refine ⟨?_, ?_, ?_, ?_⟩
  · intro listeners event data s h
    unfold notifyListeners
    rw [h]
  · intro l₁ l₂ data s
    unfold runCallbacks
    rw [List.foldl_append]
  · intro pre post bad data s
    unfold runCallbacks
    rw [List.foldl_append, List.foldl_cons]
  · intro listeners event cb
    unfold addListener
    by_cases h : (getListeners listeners event).isSome
    · obtain ⟨cbs, hc⟩ := Option.isSome_iff_exists.mp h
      rw [if_pos (by rw [hc]; rfl), hc]
      exact getListeners_map_push event cb listeners cbs hc
    · have hn : getListeners listeners event = none := Option.not_isSome_iff_eq_none.mp h
      rw [if_neg (by rw [hn]; simp), hn]
      exact getListeners_append_single event [cb] listeners hn

/-- Witness for C4 at a concrete bus over list-of-numbers state: the empty
bus drops an event, and a throwing middle callback does not stop the last
callback from running. -/
theorem c4_dispatch_isolated_witness :
    notifyListeners ([] : ListenerMap (List Nat) Nat) "orphan" 0 [] = [] ∧
      runCallbacks
          [fun (_ : Nat) (s : List Nat) => (s ++ [1], false),
           fun (_ : Nat) (s : List Nat) => (s ++ [7], true),
           fun (_ : Nat) (s : List Nat) => (s ++ [2], false)] 0 [] = [1, 7, 2] :=
  ⟨(c4_dispatch_isolated.1 [] "orphan" 0 [] rfl),
    ((c4_dispatch_isolated.2.2.1 [fun (_ : Nat) (s : List Nat) => (s ++ [1], false)]
        [fun (_ : Nat) (s : List Nat) => (s ++ [2], false)]
        (fun (_ : Nat) (s : List Nat) => (s ++ [7], true)) 0 []).trans rfl)⟩

/-- C7 counterexample: moving the temperature from 95 to 0 moves it strictly
further below the safe band 96 to 101.5, yet the stability score strictly
increases, because a temperature of exactly 0 is falsy in JavaScript and
the penalty guard skips it; so the stability score is not monotonically
non-increasing in every single vital. -/
theorem c7_counterexample_temp_zero :
    vitalsTemp95.temperature = some 95 ∧ vitalsTemp0.temperature = some 0 ∧
      distToBand 96 101.5 95 < distToBand 96 101.5 0 ∧
      assessVitalStability vitalsTemp95 < assessVitalStability vitalsTemp0 := by
  refine ⟨rfl, rfl, ?_, ?_⟩ <;> with_unfolding_all decide

/-- C7 amended: the stability score is monotonically non-increasing as any
one of heart rate, SpO2, systolic blood pressure (diastolic held fixed) or
respiratory rate moves further from its safe band with the other vitals
held fixed, and likewise for temperature restricted to nonzero readings; a
temperature of exactly 0 is treated as absent by the truthiness guard,
which is the one exception to the original claim. -/
theorem c7_amended_stability_monotone (v : PatientVitals) :
    (∀ x y : ℚ, distToBand 60 120 x ≤ distToBand 60 120 y →
      assessVitalStability { v with heartRate := y } ≤
        assessVitalStability { v with heartRate := x }) ∧
      (∀ x y : ℚ, max 0 (95 - x) ≤ max 0 (95 - y) →
        assessVitalStability { v with spO2 := y } ≤
          assessVitalStability { v with spO2 := x }) ∧
      (∀ x y : ℚ,
        distToBand (195 - 2 * jsNumOr v.diastolicBP 60) 180 x ≤
            distToBand (195 - 2 * jsNumOr v.diastolicBP 60) 180 y →
        assessVitalStability { v with systolicBP := y } ≤
          assessVitalStability { v with systolicBP := x }) ∧
      (∀ x y : ℚ, distToBand 12 24 x ≤ distToBand 12 24 y →
        assessVitalStability { v with respiratoryRate := y } ≤
          assessVitalStability { v with respiratoryRate := x }) ∧
      (∀ x y : ℚ, x ≠ 0 → y ≠ 0 → distToBand 96 101.5 x ≤ distToBand 96 101.5 y →
        assessVitalStability { v with temperature := some y } ≤
          assessVitalStability { v with temperature := some x }) := by
  refine ⟨?_, ?_, ?_, ?_, ?_⟩
  · intro x y h
    have hA : assessVitalStability { v with heartRate := x } =
        max 0 (1 - hrPenalty x - spo2Penalty v.spO2 - bpPenalty v.systolicBP v.diastolicBP
          - tempPenalty v.temperature - rrPenalty v.respiratoryRate) :=
      assessVitalStability_decomp _
    have hB : assessVitalStability { v with heartRate := y } =
        max 0 (1 - hrPenalty y - spo2Penalty v.spO2 - bpPenalty v.systolicBP v.diastolicBP
          - tempPenalty v.temperature - rrPenalty v.respiratoryRate) :=
      assessVitalStability_decomp _
    have hp : hrPenalty x ≤ hrPenalty y := by
      rw [hrPenalty_eq, hrPenalty_eq]
      exact bandPenalty_mono 60 120 0.2 x y (by norm_num) h
    rw [hA, hB]
    exact max_le_max (le_refl 0) (by linarith)
  · intro x y h
    have hA : assessVitalStability { v with spO2 := x } =
        max 0 (1 - hrPenalty v.heartRate - spo2Penalty x - bpPenalty v.systolicBP v.diastolicBP
          - tempPenalty v.temperature - rrPenalty v.respiratoryRate) :=
      assessVitalStability_decomp _
    have hB : assessVitalStability { v with spO2 := y } =
        max 0 (1 - hrPenalty v.heartRate - spo2Penalty y - bpPenalty v.systolicBP v.diastolicBP
          - tempPenalty v.temperature - rrPenalty v.respiratoryRate) :=
      assessVitalStability_decomp _
    have hp : spo2Penalty x ≤ spo2Penalty y := spo2Penalty_mono x y h
    rw [hA, hB]
    exact max_le_max (le_refl 0) (by linarith)
  · intro x y h
    have hA : assessVitalStability { v with systolicBP := x } =
        max 0 (1 - hrPenalty v.heartRate - spo2Penalty v.spO2 - bpPenalty x v.diastolicBP
          - tempPenalty v.temperature - rrPenalty v.respiratoryRate) :=
      assessVitalStability_decomp _
    have hB : assessVitalStability { v with systolicBP := y } =
        max 0 (1 - hrPenalty v.heartRate - spo2Penalty v.spO2 - bpPenalty y v.diastolicBP
          - tempPenalty v.temperature - rrPenalty v.respiratoryRate) :=
      assessVitalStability_decomp _
    have hp : bpPenalty x v.diastolicBP ≤ bpPenalty y v.diastolicBP := by
      rw [bpPenalty_eq, bpPenalty_eq]
      exact bandPenalty_mono _ 180 0.3 x y (by norm_num) h
    rw [hA, hB]
    exact max_le_max (le_refl 0) (by linarith)
  · intro x y h
    have hA : assessVitalStability { v with respiratoryRate := x } =
        max 0 (1 - hrPenalty v.heartRate - spo2Penalty v.spO2
          - bpPenalty v.systolicBP v.diastolicBP - tempPenalty v.temperature - rrPenalty x) :=
      assessVitalStability_decomp _
    have hB : assessVitalStability { v with respiratoryRate := y } =
        max 0 (1 - hrPenalty v.heartRate - spo2Penalty v.spO2
          - bpPenalty v.systolicBP v.diastolicBP - tempPenalty v.temperature - rrPenalty y) :=
      assessVitalStability_decomp _
    have hp : rrPenalty x ≤ rrPenalty y := by
      rw [rrPenalty_eq, rrPenalty_eq]
      exact bandPenalty_mono 12 24 0.2 x y (by norm_num) h
    rw [hA, hB]
    exact max_le_max (le_refl 0) (by linarith)
  · intro x y hx0 hy0 h
    have hA : assessVitalStability { v with temperature := some x } =
        max 0 (1 - hrPenalty v.heartRate - spo2Penalty v.spO2
          - bpPenalty v.systolicBP v.diastolicBP - tempPenalty (some x)
          - rrPenalty v.respiratoryRate) :=
      assessVitalStability_decomp _
    have hB : assessVitalStability { v with temperature := some y } =
        max 0 (1 - hrPenalty v.heartRate - spo2Penalty v.spO2
          - bpPenalty v.systolicBP v.diastolicBP - tempPenalty (some y)
          - rrPenalty v.respiratoryRate) :=
      assessVitalStability_decomp _
    have hp : tempPenalty (some x) ≤ tempPenalty (some y) := by
      rw [tempPenalty_eq_of_ne x hx0, tempPenalty_eq_of_ne y hy0]
      exact bandPenalty_mono 96 101.5 0.2 x y (by norm_num) h
    rw [hA, hB]
    exact max_le_max (le_refl 0) (by linarith)

/-- Witness for C7 amended: raising heart rate from 130 to 150 (both above
the safe band) does not increase the stability score. -/
theorem c7_amended_stability_monotone_witness :
    distToBand 60 120 130 ≤ distToBand 60 120 150 ∧
      assessVitalStability { vitalsTemp95 with heartRate := 150 } ≤
        assessVitalStability { vitalsTemp95 with heartRate := 130 } :=
  ⟨by with_unfolding_all decide,
    (c7_amended_stability_monotone vitalsTemp95).1 130 150 (by with_unfolding_all decide)⟩

theorem assessVitalStabilityNoSevere_decomp (v : PatientVitals) :
    assessVitalStabilityNoSevere v =
      max 0 (1 - bandPenalty 60 120 0.2 v.heartRate - (if v.spO2 < 95 then (0.3:ℚ) else 0)
        - bpPenalty v.systolicBP v.diastolicBP - tempPenalty v.temperature
        - rrPenalty v.respiratoryRate) := by
  simp only [assessVitalStabilityNoSevere, bandPenalty, bpPenalty, tempPenalty, rrPenalty]
  split_ifs <;> norm_num

/-- C9: the severe else-branches of assessVitalStability (subtracting 0.4
for heart rate and 0.5 for SpO2) are unreachable, because their guards
imply the guards of the branches tested first; the function therefore
coincides with the variant in which they are deleted, and the penalty
applied per vital never exceeds 0.3. -/
theorem c9_severe_branches_unreachable :
    (∀ v : PatientVitals, assessVitalStability v = assessVitalStabilityNoSevere v) ∧
      (∀ x : ℚ, hrPenalty x = bandPenalty 60 120 0.2 x) ∧
      (∀ x : ℚ, spo2Penalty x = if x < 95 then 0.3 else 0) ∧
      (∀ v : PatientVitals,
        hrPenalty v.heartRate ≤ 0.3 ∧ spo2Penalty v.spO2 ≤ 0.3 ∧
          bpPenalty v.systolicBP v.diastolicBP ≤ 0.3 ∧ tempPenalty v.temperature ≤ 0.3 ∧
          rrPenalty v.respiratoryRate ≤ 0.3) := by
  refine ⟨?_, hrPenalty_eq, spo2Penalty_eq, ?_⟩
  · intro v
    rw [assessVitalStability_decomp, assessVitalStabilityNoSevere_decomp,
      hrPenalty_eq, spo2Penalty_eq]
  · intro v
    refine ⟨?_, ?_, ?_, ?_, ?_⟩
    · rw [hrPenalty_eq]
      unfold bandPenalty
      split_ifs <;> norm_num
    · rw [spo2Penalty_eq]
      split_ifs <;> norm_num
    · unfold bpPenalty
      split_ifs <;> norm_num
    · unfold tempPenalty
      split_ifs <;> norm_num
    · unfold rrPenalty
      split_ifs <;> norm_num

/-- C10: every confidence produced by the fallback engine lies in the
interval from 0.5 to 0.95 on the 0-1 scale: each not-ready branch is one of
the constants 0.8, 0.85, 0.88, 0.9, 0.95, the ready branch is
min 0.95 (0.7 + stability times 0.25) and lies in the interval from 0.875
to 0.95 because it is reached only when stability is at least 0.7, and the
internal-error result carries 0.5. -/
theorem c10_confidence_bounds (p : Patient) :
    0.5 ≤ (fallbackPrediction p).confidence ∧
      (fallbackPrediction p).confidence ≤ 0.95 ∧
      ((fallbackPrediction p).transferReady = true →
        0.875 ≤ (fallbackPrediction p).confidence ∧
          (fallbackPrediction p).confidence =
            min 0.95 (0.7 + assessVitalStability p.vitals * 0.25)) ∧
      conservativeFallback.confidence = 0.5 := by
  have h0 := assessVitalStability_nonneg p.vitals
  have h1 := assessVitalStability_le_one p.vitals
  rw [fallbackPrediction_eq_core]
  unfold fallbackPredictionCore transferDecision
  split_ifs with hv hs hl hg hst
  · exact ⟨by norm_num, by norm_num, fun hr => by simp at hr, rfl⟩
  · exact ⟨by norm_num, by norm_num, fun hr => by simp at hr, rfl⟩
  · exact ⟨by norm_num, by norm_num, fun hr => by simp at hr, rfl⟩
  · exact ⟨by norm_num, by norm_num, fun hr => by simp at hr, rfl⟩
  · exact ⟨by norm_num, by norm_num, fun hr => by simp at hr, rfl⟩
  · have hst7 : (0.7:ℚ) ≤ assessVitalStability p.vitals := not_lt.mp hst
    refine ⟨?_, ?_, fun _ => ⟨?_, rfl⟩, rfl⟩
    · exact le_min (by norm_num) (by nlinarith)
    · exact min_le_left _ _
    · exact le_min (by norm_num) (by nlinarith)

/-- Witness for C10: a concrete stable patient takes the ready branch, so
the implication in the theorem applies with its hypothesis discharged. -/
theorem c10_confidence_bounds_witness :
    (fallbackPrediction patientStable).transferReady = true ∧
      0.875 ≤ (fallbackPrediction patientStable).confidence :=
  ⟨by with_unfolding_all decide,
    ((c10_confidence_bounds patientStable).2.2.1 (by with_unfolding_all decide)).1⟩

theorem fallbackPrediction_riskFactors (p : Patient) :
    (fallbackPrediction p).riskFactors = identifyRiskFactors p := by
  rw [fallbackPrediction_eq_core]
  unfold fallbackPredictionCore transferDecision
  split_ifs <;> rfl

theorem mem_appendIf_left {a : String} (c : Prop) [Decidable c] {l : List String}
    (m : List String) (h : a ∈ l) : a ∈ appendIf c l m := by
  unfold appendIf
  split_ifs
  · exact List.mem_append.mpr (Or.inl h)
  · exact h

theorem mem_appendIf_push {a : String} {c : Prop} [Decidable c] (l : List String)
    {m : List String} (hc : c) (hm : a ∈ m) : a ∈ appendIf c l m := by
  unfold appendIf
  rw [if_pos hc]
  exact List.mem_append.mpr (Or.inr hm)

theorem mem_ite_length {a : String} {F d : List String} (h : a ∈ F) :
    a ∈ (if F.length > 0 then F else d) := by
  rw [if_pos (List.length_pos_of_mem h)]
  exact h

theorem elevated_lactate_mem (p : Patient) (h : p.vitals.lactate > 2.0) :
    "Elevated lactate" ∈ identifyRiskFactors p := by
  unfold identifyRiskFactors
  exact mem_ite_length
    (mem_appendIf_left _ _ (mem_appendIf_left _ _ (mem_appendIf_left _ _
      (mem_appendIf_left _ _ (mem_appendIf_push _ h (List.mem_singleton.mpr rfl))))))

/-- C8 counterexample: a patient with lactate 5.2 who is not ventilated but
is on pressors is caught by the first decision branch, whose reasoning
text speaks of ventilator and pressors and does not mention lactate, so the
claim that the reasoning mentions lactate for every such snapshot fails. -/
theorem c8_counterexample_pressors_mask_lactate :
    patientPressorsLactate.vitals.lactate = 5.2 ∧
      patientPressorsLactate.onVentilator = false ∧
      (fallbackPrediction patientPressorsLactate).transferReady = false ∧
      "Elevated lactate" ∈ (fallbackPrediction patientPressorsLactate).riskFactors ∧
      ¬ mentionsWord "lactate" (fallbackPrediction patientPressorsLactate).reasoning := by
  refine ⟨rfl, rfl, ?_, ?_, ?_⟩ <;> with_unfolding_all decide

theorem fallbackPrediction_reasoning_of_high_lactate (p : Patient)
    (hl4 : p.vitals.lactate > 4.0) :
    (fallbackPrediction p).reasoning =
      if (p.onVentilator || p.onPressors) = true then
        "Patient requires intensive care support (ventilator/pressors)"
      else if calculateSOFAScore p ≥ 6 then
        "High SOFA score indicates multi-organ dysfunction"
      else "Elevated lactate suggests ongoing tissue hypoperfusion" := by
  rw [fallbackPrediction_eq_core]
  unfold fallbackPredictionCore transferDecision
  by_cases hvp : (p.onVentilator || p.onPressors) = true
  · rw [if_pos hvp, if_pos hvp]
  · rw [if_neg hvp, if_neg hvp]
    by_cases hs : calculateSOFAScore p ≥ 6
    · rw [if_pos hs, if_pos hs]
    · rw [if_neg hs, if_neg hs, if_pos hl4]

/-- C8 amended: every snapshot with lactate 5.2 is predicted not ready and
its risk factors include Elevated lactate; the reasoning mentions lactate
exactly when the patient is additionally not on a ventilator, not on
pressors and has SOFA score below 6 (an earlier branch otherwise supplies
its own ventilator/pressors or SOFA reasoning, which does not mention
lactate), and on that lactate branch the reasoning is the elevated-lactate
text with confidence 0.88. -/
theorem c8_amended_lactate (p : Patient) (h : p.vitals.lactate = 5.2) :
    (fallbackPrediction p).transferReady = false ∧
      "Elevated lactate" ∈ (fallbackPrediction p).riskFactors ∧
      (mentionsWord "lactate" (fallbackPrediction p).reasoning ↔
        (p.onVentilator = false ∧ p.onPressors = false ∧ calculateSOFAScore p < 6)) ∧
      (p.onVentilator = false → p.onPressors = false → calculateSOFAScore p < 6 →
        (fallbackPrediction p).reasoning =
            "Elevated lactate suggests ongoing tissue hypoperfusion" ∧
          mentionsWord "lactate" (fallbackPrediction p).reasoning ∧
          (fallbackPrediction p).confidence = 0.88) := by
  have hl4 : p.vitals.lactate > 4.0 := by
    rw [h]
    norm_num
  have hl2 : p.vitals.lactate > 2.0 := by
    rw [h]
    norm_num
  refine ⟨?_, ?_, ?_, ?_⟩
  · rw [fallbackPrediction_eq_core]
    unfold fallbackPredictionCore transferDecision
    split_ifs <;> first | rfl | exact absurd hl4 (by assumption)
  · rw [fallbackPrediction_riskFactors]
    exact elevated_lactate_mem p hl2
  · rw [fallbackPrediction_reasoning_of_high_lactate p hl4]
    by_cases hvp : (p.onVentilator || p.onPressors) = true
    · rw [if_pos hvp]
      constructor
      · intro hm
        exact absurd hm (by decide)
      · rintro ⟨hv, hp2, -⟩
        rw [hv, hp2] at hvp
        simp at hvp
    · have hv2 : p.onVentilator = false ∧ p.onPressors = false := by
        simpa [Bool.or_eq_true, not_or, Bool.not_eq_true] using hvp
      rw [if_neg hvp]
      by_cases hs : calculateSOFAScore p ≥ 6
      · rw [if_pos hs]
        constructor
        · intro hm
          exact absurd hm (by decide)
        · rintro ⟨-, -, hlt⟩
          exact absurd hlt (not_lt.mpr hs)
      · rw [if_neg hs]
        constructor
        · intro _
          exact ⟨hv2.1, hv2.2, not_le.mp hs⟩
        · intro _
          decide
  · intro hv hp2 hs
    rw [fallbackPrediction_eq_core]
    unfold fallbackPredictionCore transferDecision
    rw [hv, hp2]
    rw [if_neg (by simp : ¬((false || false) = true))]
    rw [if_neg (not_le.mpr hs)]
    rw [if_pos hl4]
    refine ⟨rfl, ?_, rfl⟩
    show mentionsWord "lactate" "Elevated lactate suggests ongoing tissue hypoperfusion"
    decide

/-- Witness for C8 amended at a concrete low-SOFA patient with lactate 5.2
and no life support. -/
theorem c8_amended_lactate_witness :
    calculateSOFAScore patientLactateOnly < 6 ∧
      (fallbackPrediction patientLactateOnly).reasoning =
        "Elevated lactate suggests ongoing tissue hypoperfusion" :=
  ⟨by with_unfolding_all decide,
    ((c8_amended_lactate patientLactateOnly rfl).2.2.2 rfl rfl
      (by with_unfolding_all decide)).1⟩
